import Mathlib

/-!
Verification of the OntarioERWait location-resolution and hospital-ranking engine.

The definitions below are a shallow embedding of the TypeScript/React-Native
source (frontend/app/index.tsx).  JS numbers are modelled as rationals,
JS strings as Lean strings over their character lists (the model is ASCII-level:
`toUpperCase`, `toLowerCase`, the regex character classes and the whitespace
class are modelled on the ASCII characters that actually occur in postal codes
and in the data handled by the app).  Asynchronous network calls are modelled
by oracle values describing the outcome of each call site: an `Except Unit α`
value is `.error ()` when the awaited call throws (network failure or a
`.json()` parse failure) and `.ok v` when it resolves with payload `v`.
-/

namespace OntarioERWait

/-- Coordinates, floating-point degrees in the source, modelled as rationals. -/
structure Coordinates where
  lat : ℚ
  lng : ℚ
deriving DecidableEq, Repr

/-- JS `Math.round`: rounds to the nearest integer, halves toward positive
infinity, i.e. `floor (x + 1/2)`. -/
def jsRound (q : ℚ) : ℚ := ((⌊q + 1/2⌋ : ℤ) : ℚ)

/-- The fixed urban average-speed constant of both travel-time providers. -/
def AVERAGE_SPEED_KMH : ℚ := 40

/-- Option B provider (EstimatedTravelTimeProvider.calculateTravelTime):
`Math.round((distanceKm / 40) * 60)`.  The two coordinates are unused by the
formula but are part of the provider signature. -/
def EstimatedTravelTimeProvider.calculateTravelTime
    (source dest : Coordinates) (distanceKm : ℚ) : ℚ :=
  jsRound (distanceKm / AVERAGE_SPEED_KMH * 60)

/-- Outcome of the one routing HTTP call made by the RealRouting provider:
the fetch itself can throw, the response can have a non-ok status (the code
then throws and catches its own Error), the body can fail to parse in
`response.json()`, or the call succeeds with a `duration` payload. -/
inductive RoutingCallOutcome where
  | fetchError
  | badStatus
  | malformedBody
  | success (duration : ℚ)
deriving DecidableEq, Repr

/-- A routing call outcome that does not deliver a duration. -/
def RoutingCallOutcome.isFailure : RoutingCallOutcome → Bool
  | .success _ => false
  | _ => true

/-- Option C provider (RealRoutingTimeProvider.calculateTravelTime): try the
backend routing endpoint; on success return `data.duration`; on any caught
failure fall back to `Math.round(distanceKm / 40 * 60)`. -/
def RealRoutingTimeProvider.calculateTravelTime
    (outcome : RoutingCallOutcome) (source dest : Coordinates) (distanceKm : ℚ) : ℚ :=
  match outcome with
  | .success d => d
  | .fetchError => jsRound (distanceKm / AVERAGE_SPEED_KMH * 60)
  | .badStatus => jsRound (distanceKm / AVERAGE_SPEED_KMH * 60)
  | .malformedBody => jsRound (distanceKm / AVERAGE_SPEED_KMH * 60)

/-! Character-level machinery for the postal-code regex
`/^[KLMNP][0-9][A-Z]\s?[0-9][A-Z][0-9]$/i` and for `toUpperCase` /
`toLowerCase` / `trim`, modelled at the ASCII level. -/

/-- The character class `[A-Z]`. -/
def asciiUpperChars : List Char :=
  ['A','B','C','D','E','F','G','H','I','J','K','L','M',
   'N','O','P','Q','R','S','T','U','V','W','X','Y','Z']

/-- The character class `[a-z]`. -/
def asciiLowerChars : List Char :=
  ['a','b','c','d','e','f','g','h','i','j','k','l','m',
   'n','o','p','q','r','s','t','u','v','w','x','y','z']

/-- The character class `[0-9]`. -/
def digitChars : List Char := ['0','1','2','3','4','5','6','7','8','9']

/-- ASCII whitespace recognised by the JS `\s` class and by `trim`. -/
def jsWhitespaceChars : List Char := [' ', '\t', '\n', '\r', '\x0b', '\x0c']

/-- Membership in `[A-Z]`. -/
def isAsciiUpper (c : Char) : Bool := c ∈ asciiUpperChars

/-- Membership in `[a-z]`. -/
def isAsciiLower (c : Char) : Bool := c ∈ asciiLowerChars

/-- The case-insensitive letter class `[A-Z]` under the regex `i` flag. -/
def isAsciiLetter (c : Char) : Bool := isAsciiUpper c || isAsciiLower c

/-- Membership in `[0-9]`. -/
def isDigitChar (c : Char) : Bool := c ∈ digitChars

/-- Membership in the `\s` class (ASCII part). -/
def isJsSpace (c : Char) : Bool := c ∈ jsWhitespaceChars

/-- The case-insensitive class `[KLMNP]` under the regex `i` flag. -/
def isOntarioLeading (c : Char) : Bool :=
  c ∈ (['K','L','M','N','P','k','l','m','n','p'] : List Char)

/-- ASCII model of JS `String.prototype.toUpperCase` on one character. -/
def jsToUpper (c : Char) : Char :=
  match c with
  | 'a' => 'A' | 'b' => 'B' | 'c' => 'C' | 'd' => 'D' | 'e' => 'E'
  | 'f' => 'F' | 'g' => 'G' | 'h' => 'H' | 'i' => 'I' | 'j' => 'J'
  | 'k' => 'K' | 'l' => 'L' | 'm' => 'M' | 'n' => 'N' | 'o' => 'O'
  | 'p' => 'P' | 'q' => 'Q' | 'r' => 'R' | 's' => 'S' | 't' => 'T'
  | 'u' => 'U' | 'v' => 'V' | 'w' => 'W' | 'x' => 'X' | 'y' => 'Y'
  | 'z' => 'Z'
  | other => other

/-- ASCII model of JS `String.prototype.toLowerCase` on one character. -/
def jsToLower (c : Char) : Char :=
  match c with
  | 'A' => 'a' | 'B' => 'b' | 'C' => 'c' | 'D' => 'd' | 'E' => 'e'
  | 'F' => 'f' | 'G' => 'g' | 'H' => 'h' | 'I' => 'i' | 'J' => 'j'
  | 'K' => 'k' | 'L' => 'l' | 'M' => 'm' | 'N' => 'n' | 'O' => 'o'
  | 'P' => 'p' | 'Q' => 'q' | 'R' => 'r' | 'S' => 's' | 'T' => 't'
  | 'U' => 'u' | 'V' => 'v' | 'W' => 'w' | 'X' => 'x' | 'Y' => 'y'
  | 'Z' => 'z'
  | other => other

/-- JS `String.prototype.trim` on the character list: drop whitespace from
both ends. -/
def jsTrimChars (l : List Char) : List Char :=
  ((l.dropWhile isJsSpace).reverse.dropWhile isJsSpace).reverse

/-- Whole-string test of `/^[KLMNP][0-9][A-Z]\s?[0-9][A-Z][0-9]$/i`: either
six characters with no separator, or seven with a whitespace separator after
the third. -/
def postalPatternTest : List Char → Bool
  | [a, b, c, d, e, f] =>
      isOntarioLeading a && isDigitChar b && isAsciiLetter c &&
      isDigitChar d && isAsciiLetter e && isDigitChar f
  | [a, b, c, w, d, e, f] =>
      isOntarioLeading a && isDigitChar b && isAsciiLetter c && isJsSpace w &&
      isDigitChar d && isAsciiLetter e && isDigitChar f
  | _ => false

/-- validateOntarioPostalCode: `ontarioPostalRegex.test(postalCode.trim())`. -/
def validateOntarioPostalCode (postalCode : String) : Bool :=
  postalPatternTest (jsTrimChars postalCode.data)

/-- Characters kept by `replace(/[^A-Z0-9]/g, '')` after uppercasing. -/
def keepAlnum (c : Char) : Bool := isAsciiUpper c || isDigitChar c

/-- formatPostalCode: uppercase, strip everything outside `[A-Z0-9]`, and once
more than three characters remain, return `slice(0,3) + ' ' + slice(3,6)`
(note the `slice(3,6)`: at most six significant characters survive). -/
def formatPostalCode (text : String) : String :=
  let cleaned := (text.data.map jsToUpper).filter keepAlnum
  if cleaned.length > 3 then
    ⟨cleaned.take 3 ++ (' ' :: (cleaned.drop 3).take 3)⟩
  else ⟨cleaned⟩

/-- Spec-side restatement of the validator, written from the spec's words:
after ignoring leading/trailing whitespace, one leading letter among
K, L, M, N, P, then a digit, a letter, an optional single whitespace
separator, then digit-letter-digit, case-insensitively.  Structured as a
three-character head followed by a tail of three or four characters, to be
compared with the code's whole-string regex test. -/
def specPostalTail : List Char → Bool
  | [d, e, f] => isDigitChar d && isAsciiLetter e && isDigitChar f
  | [w, d, e, f] => isJsSpace w && isDigitChar d && isAsciiLetter e && isDigitChar f
  | _ => false

/-- Spec-side matcher: three-character head, then the tail. -/
def specPostalHead : List Char → Bool
  | a :: b :: c :: rest =>
      isOntarioLeading a && isDigitChar b && isAsciiLetter c && specPostalTail rest
  | _ => false

/-- Spec-side validator, head plus tail on the trimmed input. -/
def specValidatePostal (s : String) : Bool :=
  specPostalHead (jsTrimChars s.data)

/-- Spec-side restatement of the formatter exactly as claimed, written from
the spec's words: strip all characters outside letters/digits, uppercase the
remainder, and insert a single space after the third character once at least
four characters are present (no truncation is mentioned). -/
def claimedFormatPostalCode (text : String) : String :=
  let cleaned := (text.data.map jsToUpper).filter keepAlnum
  if cleaned.length > 3 then
    ⟨cleaned.take 3 ++ (' ' :: cleaned.drop 3)⟩
  else ⟨cleaned⟩

/-- Formatter restated with the truncation made explicit (the amended form of
claim C7): keep at most the first six stripped characters, then insert the
space once at least four are present.  Structured take-six-first, to be
compared with the code's slice-based form. -/
def amendedFormatPostalCode (text : String) : String :=
  let kept := ((text.data.map jsToUpper).filter keepAlnum).take 6
  if kept.length ≥ 4 then ⟨kept.take 3 ++ (' ' :: kept.drop 3)⟩ else ⟨kept⟩

/-- Hospital record as served by the backend and enriched by the engine.
Optional numeric fields model the optional TS fields; a `none` models an
absent field. -/
structure Hospital where
  id : String
  name : String
  address : String
  city : String
  coordinates : Coordinates
  currentWaitTime : ℚ
  lastUpdated : String
  phone : String
  services : List String
  distance : Option ℚ
  score : Option ℚ
  travelTimeMinutes : Option ℚ
  totalTimeMinutes : Option ℚ
deriving DecidableEq, Repr

/-- The three sort policies. -/
inductive SortMode where
  | combined
  | travelTime
  | waitTime
deriving DecidableEq, Repr

/-- Comparator key of the `travelTime` mode: `a.travelTimeMinutes || 0`
(an absent value and a present 0 both give 0). -/
def travelSortKey (h : Hospital) : ℚ := h.travelTimeMinutes.getD 0

/-- Comparator key of the `combined` mode: `a.totalTimeMinutes || 0`. -/
def combinedSortKey (h : Hospital) : ℚ := h.totalTimeMinutes.getD 0

/-- The sum the claim C3 speaks about: `travelTimeMinutes + currentWaitTime`
(with the absent-is-0 reading for the optional field). -/
def claimedCombinedKey (h : Hospital) : ℚ := travelSortKey h + h.currentWaitTime

/-- sortHospitals: copies the list and sorts it ascending with the numeric
comparator `keyA - keyB` of the active mode.  JS `Array.prototype.sort` is a
stable sort (ES2019), modelled by `List.mergeSort` on the key order. -/
def sortHospitals (hospitalList : List Hospital) (mode : SortMode) : List Hospital :=
  match mode with
  | .travelTime =>
      hospitalList.mergeSort fun a b => decide (travelSortKey a ≤ travelSortKey b)
  | .waitTime =>
      hospitalList.mergeSort fun a b => decide (a.currentWaitTime ≤ b.currentWaitTime)
  | .combined =>
      hospitalList.mergeSort fun a b => decide (combinedSortKey a ≤ combinedSortKey b)

/-- One Nominatim search hit, with its `lat`/`lon` fields (already parsed). -/
structure NominatimHit where
  lat : ℚ
  lon : ℚ
deriving DecidableEq, Repr

/-- The geocoder.ca response: `response.ok`, and the `latt`/`longt` payload
fields, where `none` models an absent-or-falsy field (the code guards with
`geoData && geoData.latt && geoData.longt`). -/
structure AltGeoResponse where
  ok : Bool
  latt : Option ℚ
  longt : Option ℚ
deriving DecidableEq, Repr

/-- Outcomes of the three provider call sites inside geocodePostalCode, in
chain order.  `.error ()` models the awaited fetch (or its `.json()`)
throwing at that step. -/
structure GeoWorld where
  structuredSearch : Except Unit (List NominatimHit)
  freeTextSearch : Except Unit (List NominatimHit)
  alternateSearch : Except Unit AltGeoResponse

/-- Result of geocodePostalCode together with how many times each provider
call site executed, for stating the chain-ordering properties. -/
structure GeoResult where
  result : Option Coordinates
  structuredCalls : Nat
  freeTextCalls : Nat
  alternateCalls : Nat
deriving DecidableEq, Repr

/-- geocodePostalCode: structured Nominatim search; if the result array is
empty, the free-text Nominatim search; if still empty, geocoder.ca (whose
usable payload is returned directly); otherwise the first hit of whichever
Nominatim array is non-empty; `null` when everything is empty.  The whole
body sits inside a single try/catch whose catch returns `null`, so a throw at
any step ends the function without executing the remaining steps. -/
def geocodePostalCode (w : GeoWorld) : GeoResult :=
  match w.structuredSearch with
  | .error _ => ⟨none, 1, 0, 0⟩
  | .ok data0 =>
    match data0 with
    | hit :: _ => ⟨some ⟨hit.lat, hit.lon⟩, 1, 0, 0⟩
    | [] =>
      match w.freeTextSearch with
      | .error _ => ⟨none, 1, 1, 0⟩
      | .ok data1 =>
        match data1 with
        | hit :: _ => ⟨some ⟨hit.lat, hit.lon⟩, 1, 1, 0⟩
        | [] =>
          match w.alternateSearch with
          | .error _ => ⟨none, 1, 1, 1⟩
          | .ok alt =>
            if alt.ok then
              match alt.latt, alt.longt with
              | some la, some lo => ⟨some ⟨la, lo⟩, 1, 1, 1⟩
              | _, _ => ⟨none, 1, 1, 1⟩
            else ⟨none, 1, 1, 1⟩

/-- The `address` object of the reverse-geocoding response.  Each field is
`none` when absent or falsy (the code only reads the fields through `||`
chains and truthiness guards, so absent and falsy are interchangeable). -/
structure NominatimAddress where
  city : Option String
  town : Option String
  village : Option String
  municipality : Option String
  suburb : Option String
  neighbourhood : Option String
  quarter : Option String
deriving DecidableEq, Repr

/-- The reverse-geocoding response: `response.ok` and the optional `address`
object (`none` when `data` or `data.address` is absent or falsy). -/
structure ReverseGeoResponse where
  ok : Bool
  address : Option NominatimAddress
deriving DecidableEq, Repr

/-- Value of a JS `a || b || c || ...` chain over string fields: the first
truthy (present and non-empty) field, `none` when all are absent or falsy. -/
def firstTruthy (l : List (Option String)) : Option String :=
  l.findSome? fun o =>
    match o with
    | some s => if s ≠ "" then some s else none
    | none => none

/-- ASCII model of JS `toLowerCase` on a string. -/
def jsStringToLower (s : String) : String := ⟨s.data.map jsToLower⟩

/-- The Brampton-only quadrant heuristic: compare against the fixed center
thresholds 43.71 N and -79.78 W. -/
def bramptonQuadrant (lat lng : ℚ) : String :=
  let isNorth : Bool := decide (lat > 43.71)
  let isWest : Bool := decide (lng < -79.78)
  if isNorth && isWest then "Northwest"
  else if isNorth && !isWest then "Northeast"
  else if !isNorth && isWest then "Southwest"
  else "Southeast"

/-- reverseGeocode: on a thrown fetch, a non-ok response, or a missing
address, the fixed placeholder; otherwise collect the city (first of
city/town/village/municipality), the neighborhood (first of
suburb/neighbourhood/quarter, discarded when identical to the city), the
Brampton quadrant when only a city named Brampton was found, and join with
" - ", falling back to the placeholder when the join is empty. -/
def reverseGeocode (lat lng : ℚ) (call : Except Unit ReverseGeoResponse) : String :=
  match call with
  | .error _ => "Unknown Area"
  | .ok resp =>
    if !resp.ok then "Unknown Area"
    else
      match resp.address with
      | none => "Unknown Area"
      | some addr =>
        let city := firstTruthy [addr.city, addr.town, addr.village, addr.municipality]
        let neighborhood := firstTruthy [addr.suburb, addr.neighbourhood, addr.quarter]
        let parts1 : List String :=
          match city with
          | some c => [c]
          | none => []
        let parts2 : List String := parts1 ++
          (match neighborhood, city with
           | some n, some c => if n ≠ c then [n] else []
           | some n, none => [n]
           | none, _ => [])
        let parts3 : List String :=
          if parts2.length = 1 && city.isSome then
            match city with
            | some c =>
                if jsStringToLower c = "brampton" then parts2 ++ [bramptonQuadrant lat lng]
                else parts2
            | none => parts2
          else parts2
        let joined := String.intercalate " - " parts3
        if joined = "" then "Unknown Area" else joined

/-- Outcomes of the calls made by fetchNearbyHospitals: the backend nearby
call (`.error ()` covers a thrown fetch, the thrown Error on a non-ok status,
and a `.json()` failure) and, per candidate index, the routing call made by
the travel-time provider for that candidate. -/
structure FetchWorld where
  backendResponse : Except Unit (List Hospital)
  routingOutcome : Nat → RoutingCallOutcome

/-- Enrichment of one candidate: compute the travel time through the
RealRouting provider (with `hospital.distance || 0` as the distance) and
attach `travelTimeMinutes` and `totalTimeMinutes`. -/
def enrichHospital (user : Coordinates) (outcome : RoutingCallOutcome) (h : Hospital) : Hospital :=
  let travelTime :=
    RealRoutingTimeProvider.calculateTravelTime outcome user h.coordinates (h.distance.getD 0)
  { h with travelTimeMinutes := some travelTime
           totalTimeMinutes := some (travelTime + h.currentWaitTime) }

/-- The fan-out over all candidates (`Promise.all` over `data.map`), with the
routing-call outcome of the candidate at index `i` given by the oracle. -/
def enrichHospitals (user : Coordinates) (routing : Nat → RoutingCallOutcome) :
    List Hospital → Nat → List Hospital
  | [], _ => []
  | h :: rest, i => enrichHospital user (routing i) h :: enrichHospitals user routing rest (i + 1)

/-- fetchNearbyHospitals: fetch the candidates, enrich each with travel and
total time, and sort with the active mode (the sorted list is what the
component stores).  A backend failure propagates as an error (the catch shows
an alert and keeps the previous list). -/
def fetchNearbyHospitals (user : Coordinates) (mode : SortMode) (w : FetchWorld) :
    Except Unit (List Hospital) :=
  match w.backendResponse with
  | .error e => .error e
  | .ok data => .ok (sortHospitals (enrichHospitals user w.routingOutcome data 0) mode)

/-- A hospital with an absent total time but a large travel + wait sum, used
as one half of the C3 counterexample. -/
def hospitalNoTotal : Hospital :=
  { id := "h1", name := "General", address := "1 Main St", city := "Brampton",
    coordinates := ⟨437/10, -797/10⟩, currentWaitTime := 10, lastUpdated := "",
    phone := "555-0001", services := ["ER"], distance := some 5, score := none,
    travelTimeMinutes := some 10, totalTimeMinutes := none }

/-- A hospital with a present total time larger than the first record's
combined key but a small travel + wait sum. -/
def hospitalSmallSum : Hospital :=
  { id := "h2", name := "Civic", address := "2 Queen St", city := "Toronto",
    coordinates := ⟨436/10, -793/10⟩, currentWaitTime := 1, lastUpdated := "",
    phone := "555-0002", services := ["ER"], distance := some 1, score := none,
    travelTimeMinutes := some 1, totalTimeMinutes := some 5 }

/-- A record satisfying the enrichment invariant, for the C3 witness. -/
def hospitalConsistentA : Hospital :=
  { id := "w1", name := "Memorial", address := "3 King St", city := "Ottawa",
    coordinates := ⟨453/10, -757/10⟩, currentWaitTime := 30, lastUpdated := "",
    phone := "555-0003", services := ["ER"], distance := some 12, score := none,
    travelTimeMinutes := some 20, totalTimeMinutes := some (20 + 30) }

/-- A second record satisfying the enrichment invariant, with a smaller
combined key than the first. -/
def hospitalConsistentB : Hospital :=
  { id := "w2", name := "St. Mary", address := "4 Bay St", city := "Ottawa",
    coordinates := ⟨454/10, -756/10⟩, currentWaitTime := 5, lastUpdated := "",
    phone := "555-0004", services := ["ER"], distance := some 1, score := none,
    travelTimeMinutes := some 2, totalTimeMinutes := some (2 + 5) }

/-- A plain backend candidate (without enrichment fields), for the C4
witness. -/
def backendCandidate : Hospital :=
  { id := "b1", name := "Lakeshore", address := "5 Lake St", city := "Mississauga",
    coordinates := ⟨456/10, -795/10⟩, currentWaitTime := 45, lastUpdated := "",
    phone := "555-0005", services := ["ER"], distance := some 8, score := none,
    travelTimeMinutes := none, totalTimeMinutes := none }

end OntarioERWait

namespace OntarioERWait

/-- Claim C1: whenever the routing call of RealRoutingTimeProvider fails for
any reason (network error, non-ok status, malformed payload), the provider
does not propagate the failure and returns exactly the Estimated provider's
result for the same inputs, which is round of distanceKm / 40 * 60. -/
theorem realRouting_fallback_eq_estimated
    (outcome : RoutingCallOutcome) (source dest : Coordinates) (distanceKm : ℚ)
    (h : outcome.isFailure = true) :
    RealRoutingTimeProvider.calculateTravelTime outcome source dest distanceKm
      = EstimatedTravelTimeProvider.calculateTravelTime source dest distanceKm ∧
    RealRoutingTimeProvider.calculateTravelTime outcome source dest distanceKm
      = jsRound (distanceKm / 40 * 60) := by
  cases outcome with
  | success d => simp [RoutingCallOutcome.isFailure] at h
  | fetchError =>
      exact ⟨rfl, rfl⟩
  | badStatus =>
      exact ⟨rfl, rfl⟩
  | malformedBody =>
      exact ⟨rfl, rfl⟩

/-- Witness for C1: the fallback equivalence at a concrete failing call. -/
theorem realRouting_fallback_eq_estimated_witness :
    RoutingCallOutcome.isFailure .fetchError = true ∧
    (RealRoutingTimeProvider.calculateTravelTime .fetchError
        ⟨437315/10000, -797624/10000⟩ ⟨436532/10000, -793832/10000⟩ 40
      = EstimatedTravelTimeProvider.calculateTravelTime
        ⟨437315/10000, -797624/10000⟩ ⟨436532/10000, -793832/10000⟩ 40 ∧
     RealRoutingTimeProvider.calculateTravelTime .fetchError
        ⟨437315/10000, -797624/10000⟩ ⟨436532/10000, -793832/10000⟩ 40
      = jsRound (40 / 40 * 60)) :=
  ⟨rfl, realRouting_fallback_eq_estimated .fetchError _ _ 40 rfl⟩

/-- Counterexample for C2: when the structured Nominatim step throws, the
single surrounding try/catch returns null at once; the free-text step and the
alternate provider are never invoked, even though here the free-text step
would have produced a hit.  This refutes the claim that an exception at one
step lets the chain continue to the next step. -/
theorem geocode_structured_error_skips_rest :
    (geocodePostalCode ⟨.error (), .ok [⟨437/10, -795/10⟩],
        .ok ⟨true, some 44, some (-79)⟩⟩).result = none ∧
    (geocodePostalCode ⟨.error (), .ok [⟨437/10, -795/10⟩],
        .ok ⟨true, some 44, some (-79)⟩⟩).freeTextCalls = 0 ∧
    (geocodePostalCode ⟨.error (), .ok [⟨437/10, -795/10⟩],
        .ok ⟨true, some 44, some (-79)⟩⟩).alternateCalls = 0 :=
  ⟨rfl, rfl, rfl⟩

/-- Amended C2: a transport-level exception at any step makes
geocodePostalCode return null immediately, without attempting the later
steps; the resolver also reports null when all steps are empty or unusable,
and an error in the alternate provider still ends in the reported null
failure rather than being swallowed into a success. -/
theorem geocode_exception_aborts_chain
    (f : Except Unit (List NominatimHit)) (a : Except Unit AltGeoResponse)
    (b : Bool) (lo : Option ℚ) (la lo' : ℚ) :
    geocodePostalCode ⟨.error (), f, a⟩ = ⟨none, 1, 0, 0⟩ ∧
    geocodePostalCode ⟨.ok [], .error (), a⟩ = ⟨none, 1, 1, 0⟩ ∧
    geocodePostalCode ⟨.ok [], .ok [], .error ()⟩ = ⟨none, 1, 1, 1⟩ ∧
    geocodePostalCode ⟨.ok [], .ok [], .ok ⟨b, none, lo⟩⟩ = ⟨none, 1, 1, 1⟩ ∧
    geocodePostalCode ⟨.ok [], .ok [], .ok ⟨false, some la, some lo'⟩⟩ = ⟨none, 1, 1, 1⟩ := by
  refine ⟨rfl, rfl, rfl, ?_, rfl⟩
  cases b <;> rfl

/-- Claim C5: the provider chain is attempted in order, each later step only
when every earlier step returned an empty result; the alternate provider runs
exactly once when both Nominatim queries are empty; and the returned
coordinates are the first candidate of the first step with any result,
independent of the remaining candidates. -/
theorem geocode_chain_ordering
    (hit : NominatimHit) (rest : List NominatimHit)
    (f : Except Unit (List NominatimHit)) (a alt : Except Unit AltGeoResponse) :
    geocodePostalCode ⟨.ok (hit :: rest), f, a⟩ = ⟨some ⟨hit.lat, hit.lon⟩, 1, 0, 0⟩ ∧
    geocodePostalCode ⟨.ok [], .ok (hit :: rest), a⟩ = ⟨some ⟨hit.lat, hit.lon⟩, 1, 1, 0⟩ ∧
    (geocodePostalCode ⟨.ok [], .ok [], alt⟩).alternateCalls = 1 ∧
    (geocodePostalCode ⟨.ok [], .ok [], alt⟩).structuredCalls = 1 ∧
    (geocodePostalCode ⟨.ok [], .ok [], alt⟩).freeTextCalls = 1 := by
  refine ⟨rfl, rfl, ?_, ?_, ?_⟩ <;>
    rcases alt with e | ⟨b, la, lo⟩ <;>
      first
        | rfl
        | cases b <;> rcases la with _ | la' <;> rcases lo with _ | lo' <;> rfl

/-- Counterexample for C3: on a list where one record lacks totalTimeMinutes,
the combined sort (which orders by totalTimeMinutes-or-0) places a record
with travel + wait sum 20 before one with sum 2, so the output is not
non-decreasing in travelTimeMinutes + currentWaitTime. -/
theorem sortHospitals_combined_not_sum_sorted :
    sortHospitals [hospitalNoTotal, hospitalSmallSum] .combined
      = [hospitalNoTotal, hospitalSmallSum] ∧
    claimedCombinedKey hospitalNoTotal > claimedCombinedKey hospitalSmallSum := by
  constructor
  · simp [sortHospitals, hospitalNoTotal, hospitalSmallSum, combinedSortKey,
      List.mergeSort, List.splitInTwo, List.splitAt, List.splitAt.go, List.merge]
  · norm_num [claimedCombinedKey, travelSortKey, hospitalNoTotal, hospitalSmallSum]

/-- The comparator on a rational key is transitive and total, so the sort
output is pairwise ordered by the comparator. -/
theorem mergeSort_key_pairwise (key : Hospital → ℚ) (l : List Hospital) :
    List.Pairwise (fun a b => decide (key a ≤ key b) = true)
      (l.mergeSort fun a b => decide (key a ≤ key b)) :=
  @List.sorted_mergeSort Hospital (fun a b => decide (key a ≤ key b))
    (fun a b c h1 h2 => by
      simp only [decide_eq_true_eq] at h1 h2 ⊢
      exact le_trans h1 h2)
    (fun a b => by
      simp only [Bool.or_eq_true, decide_eq_true_eq]
      exact le_total (key a) (key b)) l

/-- The pairwise comparator facts restated with the propositional order. -/
theorem mergeSort_key_sorted (key : Hospital → ℚ) (l : List Hospital) :
    List.Pairwise (fun a b => key a ≤ key b)
      (l.mergeSort fun a b => decide (key a ≤ key b)) :=
  (mergeSort_key_pairwise key l).imp fun h => by simpa using h

/-- Sorting a sorted list by the same rational key changes nothing. -/
theorem mergeSort_key_idem (key : Hospital → ℚ) (l : List Hospital) :
    ((l.mergeSort fun a b => decide (key a ≤ key b)).mergeSort
        fun a b => decide (key a ≤ key b))
      = l.mergeSort fun a b => decide (key a ≤ key b) :=
  List.mergeSort_of_sorted (mergeSort_key_pairwise key l)

/-- Amended C3: sortHospitals with the combined mode returns a permutation of
the whole input that is non-decreasing in totalTimeMinutes with an absent
value treated as 0; when every input record's totalTimeMinutes-or-0 equals
travelTimeMinutes-or-0 plus currentWaitTime (as the enrichment guarantees),
the output is also non-decreasing in travelTimeMinutes + currentWaitTime. -/
theorem sortHospitals_combined_sorted (l : List Hospital) :
    List.Perm (sortHospitals l .combined) l ∧
    List.Pairwise (fun a b => combinedSortKey a ≤ combinedSortKey b)
      (sortHospitals l .combined) ∧
    ((∀ h ∈ l, combinedSortKey h = claimedCombinedKey h) →
      List.Pairwise (fun a b => claimedCombinedKey a ≤ claimedCombinedKey b)
        (sortHospitals l .combined)) := by
  have hperm : List.Perm (sortHospitals l .combined) l := List.mergeSort_perm l _
  have hsort : List.Pairwise (fun a b => combinedSortKey a ≤ combinedSortKey b)
      (sortHospitals l .combined) := mergeSort_key_sorted combinedSortKey l
  refine ⟨hperm, hsort, fun hinv => ?_⟩
  refine List.Pairwise.imp_of_mem ?_ hsort
  intro a b ha hb hab
  rw [← hinv a (hperm.subset ha), ← hinv b (hperm.subset hb)]
  exact hab

/-- Witness for C3 (amended): a concrete two-record list satisfying the
enrichment invariant, on which the theorem yields the permutation and the
sum-sortedness. -/
theorem sortHospitals_combined_sorted_witness :
    (∀ h ∈ [hospitalConsistentA, hospitalConsistentB],
        combinedSortKey h = claimedCombinedKey h) ∧
    List.Perm (sortHospitals [hospitalConsistentA, hospitalConsistentB] .combined)
      [hospitalConsistentA, hospitalConsistentB] ∧
    List.Pairwise (fun a b => claimedCombinedKey a ≤ claimedCombinedKey b)
      (sortHospitals [hospitalConsistentA, hospitalConsistentB] .combined) :=
  ⟨by simp [combinedSortKey, claimedCombinedKey, travelSortKey,
      hospitalConsistentA, hospitalConsistentB],
   (sortHospitals_combined_sorted _).1,
   (sortHospitals_combined_sorted _).2.2
     (by simp [combinedSortKey, claimedCombinedKey, travelSortKey,
       hospitalConsistentA, hospitalConsistentB])⟩

/-- Claim C9: sorting twice with the same mode yields the same ordering as
sorting once, for every list and every mode. -/
theorem sortHospitals_idempotent (l : List Hospital) (mode : SortMode) :
    sortHospitals (sortHospitals l mode) mode = sortHospitals l mode := by
  cases mode with
  | combined => exact mergeSort_key_idem combinedSortKey l
  | travelTime => exact mergeSort_key_idem travelSortKey l
  | waitTime => exact mergeSort_key_idem (fun h => h.currentWaitTime) l

/-- Every member of an enrichment fan-out carries the attached travel and
total times, with the total equal to travel plus wait. -/
theorem enrichHospitals_mem {user : Coordinates} {routing : Nat → RoutingCallOutcome}
    {data : List Hospital} {i : Nat} {h : Hospital}
    (hm : h ∈ enrichHospitals user routing data i) :
    ∃ t, h.travelTimeMinutes = some t ∧
      h.totalTimeMinutes = some (t + h.currentWaitTime) := by
  induction data generalizing i with
  | nil => simp [enrichHospitals] at hm
  | cons a rest ih =>
    simp only [enrichHospitals, List.mem_cons] at hm
    rcases hm with rfl | hm
    · exact ⟨_, rfl, rfl⟩
    · exact ih hm

/-- Claim C4: every record in an enriched collection returned by
fetchNearbyHospitals carries both attached fields, with totalTimeMinutes
equal to travelTimeMinutes plus currentWaitTime. -/
theorem fetchNearbyHospitals_total_invariant (user : Coordinates) (mode : SortMode)
    (w : FetchWorld) (l : List Hospital)
    (hfetch : fetchNearbyHospitals user mode w = .ok l) :
    ∀ h ∈ l, ∃ t, h.travelTimeMinutes = some t ∧
      h.totalTimeMinutes = some (t + h.currentWaitTime) := by
  unfold fetchNearbyHospitals at hfetch
  cases hw : w.backendResponse with
  | error e => rw [hw] at hfetch; simp at hfetch
  | ok data =>
    rw [hw] at hfetch
    simp only [Except.ok.injEq] at hfetch
    subst hfetch
    intro h hm
    have hm' : h ∈ enrichHospitals user w.routingOutcome data 0 := by
      cases mode <;> simpa [sortHospitals] using hm
    exact enrichHospitals_mem hm'

/-- Witness for C4: a one-candidate backend response with a successful
routing call; the enriched record satisfies the invariant. -/
theorem fetchNearbyHospitals_total_invariant_witness :
    fetchNearbyHospitals ⟨436/10, -793/10⟩ .waitTime
        ⟨.ok [backendCandidate], fun _ => .success 7⟩
      = .ok [enrichHospital ⟨436/10, -793/10⟩ (.success 7) backendCandidate] ∧
    (∃ t, (enrichHospital ⟨436/10, -793/10⟩ (.success 7) backendCandidate).travelTimeMinutes
            = some t ∧
          (enrichHospital ⟨436/10, -793/10⟩ (.success 7) backendCandidate).totalTimeMinutes
            = some (t + (enrichHospital ⟨436/10, -793/10⟩ (.success 7)
                backendCandidate).currentWaitTime)) :=
  ⟨by simp [fetchNearbyHospitals, enrichHospitals, sortHospitals],
   fetchNearbyHospitals_total_invariant ⟨436/10, -793/10⟩ .waitTime
     ⟨.ok [backendCandidate], fun _ => .success 7⟩
     [enrichHospital ⟨436/10, -793/10⟩ (.success 7) backendCandidate]
     (by simp [fetchNearbyHospitals, enrichHospitals, sortHospitals])
     (enrichHospital ⟨436/10, -793/10⟩ (.success 7) backendCandidate)
     (by simp)⟩

/-- The code's whole-string regex test agrees with the spec's head-plus-tail
phrasing on every character list. -/
theorem postalPatternTest_eq_specHead (l : List Char) :
    postalPatternTest l = specPostalHead l := by
  rcases l with _ | ⟨a, _ | ⟨b, _ | ⟨c, _ | ⟨d, _ | ⟨e, _ | ⟨f, _ | ⟨g, _ | ⟨h8, rest⟩⟩⟩⟩⟩⟩⟩⟩ <;>
    simp [postalPatternTest, specPostalHead, specPostalTail, Bool.and_assoc]

/-- Claim C6: the validator returns true exactly on strings whose trimmed
form matches the pattern (leading letter among K, L, M, N, P, digit, letter,
optional single whitespace separator, digit, letter, digit,
case-insensitively), with the claimed concrete examples; it is a total
boolean function by construction. -/
theorem validateOntarioPostalCode_spec :
    (∀ s : String, validateOntarioPostalCode s = specValidatePostal s) ∧
    validateOntarioPostalCode "K1A0B1" = true ∧
    validateOntarioPostalCode "k1a 0b1" = true ∧
    validateOntarioPostalCode "A1A 1A1" = false ∧
    validateOntarioPostalCode "K1A 0B" = false :=
  ⟨fun s => postalPatternTest_eq_specHead (jsTrimChars s.data),
   by decide, by decide, by decide, by decide⟩

/-- Counterexample for C7: with seven significant characters, the code keeps
only the first six (slice(3,6)), so the output differs from the claimed
strip-uppercase-insert-space description, which would keep all seven. -/
theorem formatPostalCode_drops_seventh_char :
    formatPostalCode "k1a0b1c" = "K1A 0B1" ∧
    claimedFormatPostalCode "k1a0b1c" = "K1A 0B1C" ∧
    formatPostalCode "k1a0b1c" ≠ claimedFormatPostalCode "k1a0b1c" :=
  ⟨by decide, by decide, by decide⟩

/-- Taking a shorter prefix of a longer prefix is taking the shorter prefix. -/
theorem take_take_of_le {m n : Nat} (h : m ≤ n) (l : List Char) :
    (l.take n).take m = l.take m := by
  induction l generalizing m n with
  | nil => simp
  | cons a t ih =>
    cases m with
    | zero => simp
    | succ m' =>
      cases n with
      | zero => omega
      | succ n' => simp [List.take_succ_cons, ih (by omega : m' ≤ n')]

/-- Amended C7: formatPostalCode strips all characters outside letters and
digits, uppercases, keeps at most the first six remaining characters, and
inserts a single space after the third once at least four are present; the
claimed concrete example holds. -/
theorem formatPostalCode_spec (s : String) :
    formatPostalCode s = amendedFormatPostalCode s ∧
    formatPostalCode "k1a0b1" = "K1A 0B1" := by
  refine ⟨?_, by decide⟩
  simp only [formatPostalCode, amendedFormatPostalCode]
  by_cases hlen : ((s.data.map jsToUpper).filter keepAlnum).length > 3
  · rw [if_pos hlen, if_pos]
    · have h1 : (((s.data.map jsToUpper).filter keepAlnum).take 6).take 3
          = ((s.data.map jsToUpper).filter keepAlnum).take 3 :=
        take_take_of_le (by omega) _
      have h2 : (((s.data.map jsToUpper).filter keepAlnum).take 6).drop 3
          = (((s.data.map jsToUpper).filter keepAlnum).drop 3).take 3 := by
        have h3 := List.take_drop 3 3 ((s.data.map jsToUpper).filter keepAlnum)
        simpa using h3.symm
      rw [h1, h2]
    · simp only [List.length_take]
      omega
  · rw [if_neg hlen, if_neg]
    · rw [List.take_of_length_le (by omega)]
    · simp only [List.length_take]
      omega

/-- A whitespace character stays outside the kept alphanumeric class after
uppercasing. -/
theorem ws_not_kept {c : Char} (h : isJsSpace c = true) :
    keepAlnum (jsToUpper c) = false := by
  have h' : c ∈ jsWhitespaceChars := by simpa [isJsSpace] using h
  fin_cases h' <;> decide

/-- A leading-class character keeps its class, is kept by the filter, and is
uppercase and non-whitespace after uppercasing. -/
theorem ont_facts {c : Char} (h : isOntarioLeading c = true) :
    keepAlnum (jsToUpper c) = true ∧ isOntarioLeading (jsToUpper c) = true ∧
    isJsSpace (jsToUpper c) = false := by
  have h' : c ∈ (['K','L','M','N','P','k','l','m','n','p'] : List Char) := by
    simpa [isOntarioLeading] using h
  fin_cases h' <;> exact ⟨rfl, rfl, rfl⟩

/-- A digit is unchanged by uppercasing, kept by the filter, and is not
whitespace. -/
theorem digit_facts {c : Char} (h : isDigitChar c = true) :
    jsToUpper c = c ∧ keepAlnum c = true ∧ isJsSpace c = false := by
  have h' : c ∈ digitChars := by simpa [isDigitChar] using h
  fin_cases h' <;> exact ⟨rfl, rfl, rfl⟩

/-- Any ASCII letter uppercases to a kept uppercase letter. -/
theorem letter_facts {c : Char} (h : isAsciiLetter c = true) :
    keepAlnum (jsToUpper c) = true ∧ isAsciiUpper (jsToUpper c) = true := by
  have h' : c ∈ asciiUpperChars ∨ c ∈ asciiLowerChars := by
    have h2 := h
    unfold isAsciiLetter isAsciiUpper isAsciiLower at h2
    simpa using h2
  rcases h' with h' | h' <;> fin_cases h' <;> exact ⟨rfl, rfl⟩

/-- An uppercase letter is a letter and is not whitespace. -/
theorem upper_facts {c : Char} (h : isAsciiUpper c = true) :
    isAsciiLetter c = true ∧ isJsSpace c = false := by
  have h' : c ∈ asciiUpperChars := by simpa [isAsciiUpper] using h
  fin_cases h' <;> exact ⟨rfl, rfl⟩

/-- A leading-class character is not whitespace. -/
theorem ont_not_ws {c : Char} (h : isOntarioLeading c = true) :
    isJsSpace c = false := by
  have h' : c ∈ (['K','L','M','N','P','k','l','m','n','p'] : List Char) := by
    simpa [isOntarioLeading] using h
  fin_cases h' <;> rfl

/-- Dropping leading whitespace does not change the uppercased filtered
characters. -/
theorem clean_dropWhile (l : List Char) :
    (((l.dropWhile isJsSpace).map jsToUpper).filter keepAlnum)
      = ((l.map jsToUpper).filter keepAlnum) := by
  induction l with
  | nil => rfl
  | cons a t ih =>
    by_cases ha : isJsSpace a = true
    · rw [List.dropWhile_cons_of_pos ha, ih, List.map_cons,
        List.filter_cons_of_neg (by simp [ws_not_kept ha])]
    · rw [List.dropWhile_cons_of_neg (by simp [ha])]

/-- Trimming does not change the uppercased filtered characters. -/
theorem clean_trim (l : List Char) :
    (((jsTrimChars l).map jsToUpper).filter keepAlnum)
      = ((l.map jsToUpper).filter keepAlnum) := by
  unfold jsTrimChars
  simp only [List.map_reverse, List.filter_reverse, clean_dropWhile,
    List.reverse_reverse]

/-- If the kept characters of the input are exactly a six-character postal
core, formatting yields the seven-character spaced form and that form passes
validation. -/
theorem validate_format_core (s : String) (a b c d e f : Char)
    (hc : (s.data.map jsToUpper).filter keepAlnum = [a, b, c, d, e, f])
    (ha : isOntarioLeading a = true) (hb : isDigitChar b = true)
    (hcL : isAsciiUpper c = true) (hd : isDigitChar d = true)
    (he : isAsciiUpper e = true) (hf : isDigitChar f = true) :
    validateOntarioPostalCode (formatPostalCode s) = true := by
  have hfmt : formatPostalCode s = ⟨[a, b, c, ' ', d, e, f]⟩ := by
    simp only [formatPostalCode, hc]
    rfl
  rw [hfmt]
  unfold validateOntarioPostalCode
  have hwa : isJsSpace a = false := ont_not_ws ha
  have hwf : isJsSpace f = false := (digit_facts hf).2.2
  have hsp : isJsSpace ' ' = true := rfl
  simp [jsTrimChars, List.dropWhile_cons, hwa, hwf, hsp, postalPatternTest,
    ha, hb, hd, hf, (upper_facts hcL).1, (upper_facts he).1]

/-- Claim C10: formatting an already-valid postal code keeps it valid. -/
theorem validate_format_preserves (s : String)
    (h : validateOntarioPostalCode s = true) :
    validateOntarioPostalCode (formatPostalCode s) = true := by
  unfold validateOntarioPostalCode at h
  rcases ht : jsTrimChars s.data with
    _ | ⟨a, _ | ⟨b, _ | ⟨c, _ | ⟨d, _ | ⟨e, _ | ⟨f, _ | ⟨g, _ | ⟨h8, rest⟩⟩⟩⟩⟩⟩⟩⟩ <;>
    rw [ht] at h <;> simp [postalPatternTest, Bool.and_eq_true, and_assoc] at h
  · obtain ⟨ha, hb, hc', hd, he, hf⟩ := h
    have e1 : (s.data.map jsToUpper).filter keepAlnum
        = [jsToUpper a, b, jsToUpper c, d, jsToUpper e, f] := by
      rw [← clean_trim s.data, ht]
      simp [List.filter, (ont_facts ha).1, (digit_facts hb).1,
        (digit_facts hb).2.1, (letter_facts hc').1, (digit_facts hd).1,
        (digit_facts hd).2.1, (letter_facts he).1, (digit_facts hf).1,
        (digit_facts hf).2.1]
    exact validate_format_core s (jsToUpper a) b (jsToUpper c) d (jsToUpper e) f e1
      (ont_facts ha).2.1 hb (letter_facts hc').2 hd (letter_facts he).2 hf
  · obtain ⟨ha, hb, hc', hw, he, hf, hg⟩ := h
    have e1 : (s.data.map jsToUpper).filter keepAlnum
        = [jsToUpper a, b, jsToUpper c, e, jsToUpper f, g] := by
      rw [← clean_trim s.data, ht]
      simp [List.filter, (ont_facts ha).1, (digit_facts hb).1,
        (digit_facts hb).2.1, (letter_facts hc').1, ws_not_kept hw,
        (digit_facts he).1, (digit_facts he).2.1, (letter_facts hf).1,
        (digit_facts hg).1, (digit_facts hg).2.1]
    exact validate_format_core s (jsToUpper a) b (jsToUpper c) e
      (jsToUpper f) g e1
      (ont_facts ha).2.1 hb (letter_facts hc').2 he (letter_facts hf).2 hg

/-- Witness for C10 at a concrete valid postal code. -/
theorem validate_format_preserves_witness :
    validateOntarioPostalCode "k1a 0b1" = true ∧
    validateOntarioPostalCode (formatPostalCode "k1a 0b1") = true :=
  ⟨by decide, validate_format_preserves "k1a 0b1" (by decide)⟩

/-- A non-empty separator makes the joined string non-empty. -/
theorem append_sep_ne_empty (c q : String) : (c ++ " - " ++ q) = "" ↔ False := by
  constructor
  · intro hEq
    have hlen := congrArg String.length hEq
    have h3 : (" - " : String).length = 3 := rfl
    simp [String.length_append, h3] at hlen
  · exact False.elim

/-- Evaluation of reverseGeocode when only a city named Brampton (in any
case) is found: the quadrant label is appended. -/
theorem reverseGeocode_city_brampton (lat lng : ℚ) (c : String) (hC : c ≠ "")
    (hB : jsStringToLower c = "brampton") :
    reverseGeocode lat lng
        (.ok ⟨true, some ⟨some c, none, none, none, none, none, none⟩⟩)
      = c ++ " - " ++ bramptonQuadrant lat lng := by
  unfold reverseGeocode
  simp [firstTruthy, List.findSome?, hC, hB, String.intercalate,
    String.intercalate.go, append_sep_ne_empty]

/-- Counterexample for C8: at coordinates north-west of the Brampton center
thresholds, a response whose only address part is the city Brampton makes the
code return the city joined with a synthesized quadrant label, not the
city-and-neighborhood join the claim describes (which would be just the
city). -/
theorem reverseGeocode_brampton_quadrant_cex :
    reverseGeocode 44 (-80)
        (.ok ⟨true, some ⟨some "Brampton", none, none, none, none, none, none⟩⟩)
      = "Brampton - Northwest" ∧
    ("Brampton - Northwest" : String) ≠ "Brampton" := by
  constructor
  · rw [reverseGeocode_city_brampton 44 (-80) "Brampton" (by decide) (by decide)]
    have hq : bramptonQuadrant 44 (-80) = "Northwest" := by
      unfold bramptonQuadrant
      norm_num
    rw [hq]
    decide
  · decide

/-- Amended C8: reverseGeocode never fails — a thrown call, a non-ok
response, a missing address, or an address with no usable fields all yield
the fixed placeholder; otherwise the collected city and neighborhood parts
are joined with " - " (the neighborhood discarded when identical to the
city), except that when only a city named Brampton was found a
compass-quadrant label derived from the coordinates is appended before
joining. -/
theorem reverseGeocode_spec (lat lng : ℚ) (addrOpt : Option NominatimAddress)
    (c n : String) :
    reverseGeocode lat lng (.error ()) = "Unknown Area" ∧
    reverseGeocode lat lng (.ok ⟨false, addrOpt⟩) = "Unknown Area" ∧
    reverseGeocode lat lng (.ok ⟨true, none⟩) = "Unknown Area" ∧
    reverseGeocode lat lng
        (.ok ⟨true, some ⟨none, none, none, none, none, none, none⟩⟩)
      = "Unknown Area" ∧
    (c ≠ "" → n ≠ "" → n ≠ c →
      reverseGeocode lat lng
          (.ok ⟨true, some ⟨some c, none, none, none, some n, none, none⟩⟩)
        = c ++ " - " ++ n) ∧
    (c ≠ "" → jsStringToLower c ≠ "brampton" →
      reverseGeocode lat lng
          (.ok ⟨true, some ⟨some c, none, none, none, some c, none, none⟩⟩)
        = c) ∧
    (c ≠ "" → jsStringToLower c = "brampton" →
      reverseGeocode lat lng
          (.ok ⟨true, some ⟨some c, none, none, none, none, none, none⟩⟩)
        = c ++ " - " ++ bramptonQuadrant lat lng) := by
  refine ⟨rfl, rfl, rfl, rfl, ?_, ?_, ?_⟩
  · intro hC hN hNC
    unfold reverseGeocode
    simp [firstTruthy, List.findSome?, hC, hN, hNC, String.intercalate,
      String.intercalate.go, append_sep_ne_empty]
  · intro hC hB'
    unfold reverseGeocode
    simp [firstTruthy, List.findSome?, hC, hB', String.intercalate,
      String.intercalate.go]
  · intro hC hB
    exact reverseGeocode_city_brampton lat lng c hC hB

/-- Witness for C8 (amended) at concrete inputs for the guarded conjuncts. -/
theorem reverseGeocode_spec_witness :
    reverseGeocode 0 0
        (.ok ⟨true, some ⟨some "Toronto", none, none, none, some "Downtown", none, none⟩⟩)
      = "Toronto" ++ " - " ++ "Downtown" ∧
    reverseGeocode 0 0
        (.ok ⟨true, some ⟨some "Toronto", none, none, none, some "Toronto", none, none⟩⟩)
      = "Toronto" ∧
    reverseGeocode 0 0
        (.ok ⟨true, some ⟨some "Brampton", none, none, none, none, none, none⟩⟩)
      = "Brampton" ++ " - " ++ bramptonQuadrant 0 0 :=
  ⟨(reverseGeocode_spec 0 0 none "Toronto" "Downtown").2.2.2.2.1
      (by decide) (by decide) (by decide),
   (reverseGeocode_spec 0 0 none "Toronto" "Downtown").2.2.2.2.2.1
      (by decide) (by decide),
   (reverseGeocode_spec 0 0 none "Brampton" "x").2.2.2.2.2.2
      (by decide) (by decide)⟩

end OntarioERWait
